import Mathlib

/-!
Verification development for the meter machine-vision web app.

The embedding covers the three parts of the code the claims are about:

* the client-side pixel transform `preprocessImage` (grayscale / binarize
  loop over RGBA pixel data), including an exact model of the IEEE-754
  binary64 arithmetic the JavaScript engine performs and of the
  `Uint8ClampedArray` store (clamp, round to nearest, ties to even);
* the OCR route `src/app/api/ocr/route.ts`: the Azure response parsing in
  `performServerSideOCR` and the `POST` handler (mock short-circuit,
  credential check, file validation, error wrapping);
* the vision route `src/app/api/openai/route.ts`: the response parsing in
  `performOpenAIAnalysis` (code-fence stripping, JSON parsing, regex
  fallback) and its `POST` handler.

Network effects are modelled by passing the upstream outcome as an explicit
argument; every route function additionally returns the number of provider
(network) invocations it performed, so that "no network call" claims are
statements about that count.
-/

/-! ## Exact model of JavaScript number arithmetic (IEEE-754 binary64)

All numbers occurring in the pixel transform are nonnegative and far from
the subnormal and overflow thresholds, so binary64 arithmetic on them is
exactly: round the exact rational result to 53 significant bits, to
nearest, ties to even. -/

/-- Round a rational to the nearest integer, ties to even (the rounding
used both inside IEEE-754 binary64 operations and by `Uint8ClampedArray`
stores). -/
def rte (q : ℚ) : ℤ :=
  let f := ⌊q⌋
  let r := q - f
  if r < 1/2 then f
  else if 1/2 < r then f + 1
  else if f % 2 = 0 then f else f + 1

/-- Floor of log2 for rationals that are at least 1 (fuel-bounded halving;
the fuel 1200 covers the whole binary64 range). -/
def ilog2Up : ℕ → ℚ → ℤ
  | 0, _ => 0
  | n+1, q => if q < 2 then 0 else ilog2Up n (q / 2) + 1

/-- Floor of log2 for rationals in (0,1) (fuel-bounded doubling). -/
def ilog2Dn : ℕ → ℚ → ℤ
  | 0, _ => 0
  | n+1, q => if 1 ≤ q then 0 else ilog2Dn n (q * 2) - 1

/-- Floor of log2 of a positive rational. -/
def ilog2 (q : ℚ) : ℤ := if 1 ≤ q then ilog2Up 1200 q else ilog2Dn 1200 q

/-- 2 to an integer power, as a rational. -/
def pow2 (z : ℤ) : ℚ :=
  if 0 ≤ z then ((2 ^ z.toNat : ℕ) : ℚ) else (((2 ^ (-z).toNat : ℕ) : ℚ))⁻¹

/-- Round a nonnegative rational to the nearest IEEE-754 binary64 value
(round to nearest, ties to even, 53-bit significand; normal range). -/
def fl (q : ℚ) : ℚ :=
  if q ≤ 0 then 0
  else
    let e : ℤ := ilog2 q - 52
    (rte (q * pow2 (-e)) : ℚ) * pow2 e

/-! ## Pixel transform (`preprocessImage`, src/unnamed/part_000)

The source iterates over the flat RGBA `Uint8ClampedArray` in steps of 4;
we model the image as a list of RGBA pixels with natural-number channels
in 0..255. The alpha channel is never written by the loop. -/

/-- The binary64 value of the source literal `0.3`. -/
def c03 : ℚ := fl (3/10)

/-- The binary64 value of the source literal `0.59`. -/
def c59 : ℚ := fl (59/100)

/-- The binary64 value of the source literal `0.11`. -/
def c11 : ℚ := fl (11/100)

/-- The value of `gray = 0.3 * r + 0.59 * g + 0.11 * b` as the JavaScript
engine computes it: each multiplication and (left-associated) addition is
a correctly rounded binary64 operation. The channel values `r`, `g`, `b`
are small integers and hence exact. -/
def jsGray (r g b : ℕ) : ℚ :=
  fl (fl (fl (c03 * r) + fl (c59 * g)) + fl (c11 * b))

/-- Storing a binary64 number into a `Uint8ClampedArray` slot
(ECMAScript ToUint8Clamp): clamp to [0,255], round to nearest integer,
ties to even. -/
def toUint8Clamp (q : ℚ) : ℕ :=
  if q ≤ 0 then 0 else if 255 ≤ q then 255 else (rte q).toNat

/-- One RGBA pixel of the decoded raster (channel values 0..255). -/
structure Pixel where
  r : ℕ
  g : ℕ
  b : ℕ
  a : ℕ
deriving DecidableEq

/-- One iteration of the `preprocessImage` loop body: compute `gray`,
then either threshold (`binarize`) or store the grayscale value into the
three color channels. The store into the clamped array rounds; the
thresholded values 255 and 0 are stored exactly. Alpha is untouched. -/
def preprocessPixel (binarize : Bool) (p : Pixel) : Pixel :=
  let gray := jsGray p.r p.g p.b
  if binarize then
    let bw : ℕ := if 128 < gray then 255 else 0
    ⟨bw, bw, bw, p.a⟩
  else
    let v := toUint8Clamp gray
    ⟨v, v, v, p.a⟩

/-- The pixel loop of `preprocessImage` over a whole decoded image
(the source's default for `binarize` is `true`). Decoding and the lossless
PNG re-encoding surrounding the loop do not change pixel values and are
not modelled. -/
def preprocessImage (binarize : Bool) (img : List Pixel) : List Pixel :=
  img.map (preprocessPixel binarize)

/-! ## Spec-side definitions for the pixel transform

These two definitions follow the specification's words, not the source;
they exist to be compared against the code model above. -/

/-- Modelled from the spec: the exact grayscale intensity
`gray = 0.30 * r + 0.59 * g + 0.11 * b` as a rational number. -/
def grayExact (r g b : ℕ) : ℚ := 3/10 * r + 59/100 * g + 11/100 * b

/-- Modelled from the spec: `round(x)` rounding half up, as JavaScript's
`Math.round` and the usual reading of `round` do. (At the counterexample
below the exact gray is 27.5, where rounding half up and rounding half to
even agree, so the choice of tie-breaking does not matter there.) -/
def specRound (q : ℚ) : ℤ := ⌊q + 1/2⌋

/-! ## Shared string and JavaScript-platform helpers -/

/-- JavaScript whitespace (the WhiteSpace and LineTerminator productions,
as removed by `String.prototype.trim` and matched by the regex class `\s`). -/
def isJsWhite (c : Char) : Bool :=
  let n := c.toNat
  n == 9 || n == 10 || n == 11 || n == 12 || n == 13 || n == 32 ||
  n == 160 || n == 0x1680 || (0x2000 ≤ n && n ≤ 0x200A) ||
  n == 0x2028 || n == 0x2029 || n == 0x202F || n == 0x205F ||
  n == 0x3000 || n == 0xFEFF

/-- Character-list form of JavaScript `trim()`: drop whitespace from both
ends. -/
def trimChars (l : List Char) : List Char :=
  ((l.dropWhile isJsWhite).reverse.dropWhile isJsWhite).reverse

/-- JavaScript `String.prototype.trim`. -/
def jsTrim (s : String) : String := String.mk (trimChars s.data)

/-- Decides whether `p` is an initial segment of `s` (used to model
JavaScript `startsWith` and as a building block of `includes`). -/
def strHasLead : List Char → List Char → Bool
  | [], _ => true
  | _ :: _, [] => false
  | c :: cs, d :: ds => c == d && strHasLead cs ds

/-- JavaScript `String.prototype.startsWith`. -/
def jsStartsWith (s pat : String) : Bool := strHasLead pat.data s.data

/-- Occurrence of `needle` anywhere in `hay` (JavaScript
`String.prototype.includes`). -/
def listHasSub (needle : List Char) : List Char → Bool
  | [] => needle.isEmpty
  | c :: cs => strHasLead needle (c :: cs) || listHasSub needle cs

/-- JavaScript `String.prototype.includes`. -/
def strContains (s needle : String) : Bool := listHasSub needle.data s.data

/-- JavaScript truthiness of a `process.env` entry (`string | undefined`):
`undefined` and the empty string are falsy, every other string is truthy. -/
def truthy : Option String → Bool
  | none => false
  | some s => !(s == "")

/-- JavaScript `a || b` for an optional environment string with a string
default. -/
def jsOr (o : Option String) (d : String) : String :=
  match o with
  | none => d
  | some s => if s == "" then d else s

/-- The parsed upload (the `File` obtained from `formData.get('image')`):
its declared MIME type (`File.type`) and its byte length (`File.size`).
The byte content itself never influences the control flow modelled here. -/
structure UploadedFile where
  type : String
  size : ℕ
deriving DecidableEq

/-- Canonical shape of both route handlers' results: a 200 JSON body
`{results: ...}` or an error status with a JSON body `{error: ...}`. -/
inductive ApiResponse (α : Type) where
  | ok (results : α)
  | err (status : ℕ) (error : String)
deriving DecidableEq

/-- HTTP status of a response (200 for the success shape). -/
def ApiResponse.status {α : Type} : ApiResponse α → ℕ
  | .ok _ => 200
  | .err s _ => s

/-! ## OCR route (src/app/api/ocr/route.ts)

The repository sets `OCR4 = true`, so the response-processing branch for
the v3.2 API is dead code; the live branch parses the
`readResult.blocks[].lines[].words[]` structure. -/

namespace OcrRoute

/-- A word of the Azure read result. -/
structure OcrWord where
  text : String
deriving DecidableEq

/-- A line of the Azure read result. -/
structure OcrLine where
  words : List OcrWord
deriving DecidableEq

/-- A block of the Azure read result. -/
structure OcrBlock where
  lines : List OcrLine
deriving DecidableEq

/-- The parsed JSON body of a successful Azure response:
`data.readResult.blocks` (an absent `readResult` is modelled by the empty
block list, exactly what the source's `?? []` fallback produces). -/
structure ReadResult where
  blocks : List OcrBlock
deriving DecidableEq

/-- The source's flag selecting the 2024 image-analysis API. -/
def OCR4 : Bool := true

/-- The inner loop of the response processing: `lineText` accumulated by
`lineText += word.text + " "`. -/
def lineTextOf (ws : List OcrWord) : String :=
  ws.foldl (fun acc w => acc ++ w.text ++ " ") ""

/-- The response processing of `performServerSideOCR` (OCR4 branch): for
each block, for each line, push `lineText.trim()`. -/
def parseReadResult (rr : ReadResult) : List String :=
  rr.blocks.flatMap (fun blk => blk.lines.map (fun ln => jsTrim (lineTextOf ln.words)))

/-- Environment configuration read at module load. -/
structure Config where
  AZURE_ENDPOINT : Option String
  AZURE_KEY : Option String
deriving DecidableEq

def MAX_FILE_SIZE_MB : ℕ := 4

def MAX_FILE_SIZE_BYTES : ℕ := MAX_FILE_SIZE_MB * 1024 * 1024

/-- Helper from the source: the declared MIME type must start with
`image/`. -/
def isFileTypeValid (file : UploadedFile) : Bool :=
  jsStartsWith file.type ("image/")

/-- Helper from the source: the byte length must not exceed the maximum. -/
def isFileSizeValid (file : UploadedFile) : Bool :=
  decide (file.size ≤ MAX_FILE_SIZE_BYTES)

/-- Outcome of the single `fetch` to Azure, supplied as an explicit
argument since the network is outside the program: a 2xx response with a
parsed JSON body, a non-ok response (status and error text), or a failure
of the fetch/json steps themselves. -/
inductive AzureOutcome where
  | httpOk (body : ReadResult)
  | httpFail (status : ℕ) (errorText : String)
  | fetchFail (message : String)
deriving DecidableEq

/-- The `catch` block of `performServerSideOCR`: errors whose message
includes `Azure OCR request failed` are rethrown as the fixed
communication message, everything else as the fixed processing message.
The upstream error text is only logged, never part of either message. -/
def ocrCatchWrap (emsg : String) : String :=
  if strContains emsg ("Azure OCR request failed") then
    ("Error communicating with OCR service.")
  else ("Failed to process image with Azure OCR.")

/-- Core OCR logic `performServerSideOCR`, returning the thrown error or
the parsed lines, paired with the number of network calls performed. -/
def performServerSideOCR (cfg : Config) (outcome : AzureOutcome) :
    Except String (List String) × ℕ :=
  if !truthy cfg.AZURE_ENDPOINT || !truthy cfg.AZURE_KEY then
    (.error ("Server configuration error."), 0)
  else
    match outcome with
    | .httpOk body => (.ok (parseReadResult body), 1)
    | .httpFail status _ =>
        (.error (ocrCatchWrap ("Azure OCR request failed: " ++ Nat.repr status)), 1)
    | .fetchFail _ => (.error (ocrCatchWrap ("fetch failed")), 1)

/-- The incoming request as the handler sees it: the `useMock` query
parameter, the content-type header (only logged by the source, never
branched on), and the parsed `image` form field. -/
structure OcrRequest where
  useMockParam : Option String
  contentTypeHeader : Option String
  image : Option UploadedFile
deriving DecidableEq

/-- The fixed mock payload of the OCR route. -/
def mockOcrResults : List String :=
  [("Mock Server-Side (App Router / formData) OCR Result 1"),
   ("Mock Server-Side (App Router / formData) Result Line 2")]

/-- The `catch` block of the route handler: messages produced by
`performServerSideOCR` (recognized by their fixed opening words) pass
through; anything else is replaced by the generic message. -/
def clientMessageOf (m : String) : String :=
  if jsStartsWith m ("Azure OCR") || jsStartsWith m ("Failed to process") ||
      jsStartsWith m ("Error communicating") ||
      jsStartsWith m ("Server configuration error") then m
  else ("An unexpected error occurred during image processing.")

/-- The `POST` handler of the OCR route. In source order: mock
short-circuit (before any body parsing or validation), Azure credential
check, missing-file check, file type check, file size check, then the
single provider call. The second component counts provider (network)
invocations. The `setTimeout` delay in the mock branch is pure scheduling
and is not modelled. -/
def POST (cfg : Config) (req : OcrRequest) (outcome : AzureOutcome) :
    ApiResponse (List String) × ℕ :=
  if req.useMockParam == some ("true") then (.ok mockOcrResults, 0)
  else if !truthy cfg.AZURE_ENDPOINT || !truthy cfg.AZURE_KEY then
    (.err 500 ("OCR service is not configured correctly."), 0)
  else
    match req.image with
    | none => (.err 400 ("No image file uploaded."), 0)
    | some f =>
        if !isFileTypeValid f then
          (.err 400 ("Invalid file type. Please select an image."), 0)
        else if !isFileSizeValid f then
          (.err 400 ("File size exceeds the limit of " ++ Nat.repr MAX_FILE_SIZE_MB ++ " MB."), 0)
        else
          match performServerSideOCR cfg outcome with
          | (.ok res, n) => (.ok res, n)
          | (.error m, n) => (.err 500 (clientMessageOf m), n)

end OcrRoute

/-! ## Vision route (src/app/api/openai/route.ts) -/

namespace OpenAIRoute

/-- A JSON value as produced by the platform `JSON.parse` for the flat
objects this adapter consumes. Numbers are kept as their source lexeme:
the route never computes with them, it only stores them into the result
object. -/
inductive JsonVal where
  | jnull
  | jbool (b : Bool)
  | jnum (lexeme : String)
  | jstr (s : String)
deriving DecidableEq

/-- The double-quote character. -/
def dq : Char := Char.ofNat 34

/-- The single-quote character. -/
def sq : Char := Char.ofNat 39

/-- The opening-brace character. -/
def obr : Char := Char.ofNat 123

/-- The closing-brace character. -/
def cbr : Char := Char.ofNat 125

/-- Characters that may make up a JSON number token. -/
def isNumChar (c : Char) : Bool :=
  c.isDigit || c == '-' || c == '+' || c == '.' || c == 'e' || c == 'E'

/-- Leading JSON whitespace removed. -/
def skipWs (l : List Char) : List Char := l.dropWhile isJsWhite

/-- One JSON scalar value (double-quoted string without escape sequences,
`null`, `true`, `false`, or a number token), returning the value and the
remaining input. -/
def parseScalar (l : List Char) : Option (JsonVal × List Char) :=
  match l with
  | [] => none
  | c :: rest =>
      if c == dq then
        let s := rest.takeWhile (fun d => !(d == dq))
        match rest.drop s.length with
        | d :: r2 => if d == dq then some (.jstr (String.mk s), r2) else none
        | [] => none
      else if strHasLead ("null".data) (c :: rest) then
        some (.jnull, (c :: rest).drop 4)
      else if strHasLead ("true".data) (c :: rest) then
        some (.jbool true, (c :: rest).drop 4)
      else if strHasLead ("false".data) (c :: rest) then
        some (.jbool false, (c :: rest).drop 5)
      else
        let tok := (c :: rest).takeWhile isNumChar
        if tok.isEmpty then none
        else some (.jnum (String.mk tok), (c :: rest).drop tok.length)

/-- Members of a flat JSON object after the opening brace (fuel-bounded;
the fuel starts above the input length). -/
def parseMembers : ℕ → List Char → List (String × JsonVal) →
    Option (List (String × JsonVal))
  | 0, _, _ => none
  | fuel + 1, l, acc =>
      match parseScalar l with
      | some (.jstr k, r1) =>
          (match skipWs r1 with
          | c :: r3 =>
              if c == ':' then
                match parseScalar (skipWs r3) with
                | some (v, r5) =>
                    (match skipWs r5 with
                    | d :: r7 =>
                        if d == ',' then
                          parseMembers fuel (skipWs r7) (acc ++ [(k, v)])
                        else if d == cbr then
                          if (skipWs r7).isEmpty then some (acc ++ [(k, v)]) else none
                        else none
                    | [] => none)
                | none => none
              else none
          | [] => none)
      | _ => none

/-- Model of the platform `JSON.parse`, restricted to what the adapter's
inputs can be: a flat object of scalar members yields its member list; any
other syntactically valid top-level scalar yields an object with no
members (its `meterValue` and `serialNumber` lookups are `undefined`, as
in JavaScript); anything else fails. Nested objects and arrays, string
escape sequences, and strict number grammar are outside the model. -/
def jsonParse (l0 : List Char) : Option (List (String × JsonVal)) :=
  match skipWs l0 with
  | [] => none
  | c :: rest =>
      if c == obr then
        match skipWs rest with
        | d :: r2 =>
            if d == cbr then
              if (skipWs r2).isEmpty then some [] else none
            else parseMembers (rest.length + 1) (skipWs rest) []
        | [] => none
      else
        match parseScalar (c :: rest) with
        | some (_, r2) => if (skipWs r2).isEmpty then some [] else none
        | none => none

/-- Property lookup on a parsed JSON object: with duplicate keys the last
member wins, as in JavaScript. -/
def lookupLast (obj : List (String × JsonVal)) (k : String) : Option JsonVal :=
  (obj.reverse.find? (fun p => p.1 == k)).map (fun p => p.2)

/-- The expression `parsedJson.key ?? null`: a missing key (`undefined`)
and an explicit `null` both become the absent value; everything else is
kept verbatim. -/
def jsNullish : Option JsonVal → Option JsonVal
  | none => none
  | some .jnull => none
  | some v => some v

/-- JavaScript `String.prototype.substring` with clamping and argument
swapping, on character lists. -/
def jsSubstring (s : List Char) (a b : ℤ) : List Char :=
  let n : ℤ := s.length
  let a' := (max 0 (min a n)).toNat
  let b' := (max 0 (min b n)).toNat
  (s.drop (min a' b')).take (max a' b' - min a' b')

/-- The code-fence stripping of the adapter: a content starting with
three backticks plus `json` loses its first 7 and last 3 characters, one
starting with plain three backticks loses its first 3 and last 3, each
followed by a `trim()`. -/
def stripFence (t : List Char) : List Char :=
  if strHasLead (("```json").data) t then
    trimChars (jsSubstring t 7 ((t.length : ℤ) - 3))
  else if strHasLead (("```").data) t then
    trimChars (jsSubstring t 3 ((t.length : ℤ) - 3))
  else t

/-! ### The fallback regex

`/meterValue["']?\s*:\s*["']?([^,"'}]+)/i` (and the same with
`serialNumber`), with JavaScript's leftmost-match and greedy-with-
backtracking semantics, hand-compiled for this fixed pattern. -/

/-- Case-insensitive character comparison (the `i` flag). -/
def ciEq (a b : Char) : Bool := a.toLower == b.toLower

/-- Case-insensitive literal match returning the rest of the input. -/
def litMatch : List Char → List Char → Option (List Char)
  | [], s => some s
  | _ :: _, [] => none
  | p :: ps, c :: cs => if ciEq p c then litMatch ps cs else none

/-- Membership in the character class `["']`. -/
def isQuote (c : Char) : Bool := c == dq || c == sq

/-- Membership in the capture class `[^,"'}]`. -/
def inCapSet (c : Char) : Bool :=
  !(c == ',' || c == dq || c == sq || c == cbr)

/-- The capture group `([^,"'}]+)`: the longest nonempty run of class
characters (greedy, and nothing follows it in the pattern). -/
def capTake (s : List Char) : Option (List Char) :=
  let t := s.takeWhile inCapSet
  if t.isEmpty then none else some t

/-- The tail `["']?([^,"'}]+)` at a fixed position: the optional quote is
preferred, and if the capture after it fails the alternative without the
quote is tried (it then fails too, since a quote is outside the capture
class — kept for fidelity to backtracking order). -/
def tryQuoteCap (s : List Char) : Option (List Char) :=
  match s with
  | c :: rest =>
      if isQuote c then
        match capTake rest with
        | some t => some t
        | none => capTake s
      else capTake s
  | [] => none

/-- Backtracking over how many whitespace characters `\s*` consumes
before `["']?([^,"'}]+)`: greedy first (all of them), then one fewer at a
time; whitespace handed back becomes part of the capture. -/
def tryWsLevels : ℕ → List Char → Option (List Char)
  | 0, s => tryQuoteCap s
  | j + 1, s =>
      match tryQuoteCap (s.drop (j + 1)) with
      | some t => some t
      | none => tryWsLevels j s

/-- The pattern segment `["']?\s*:` after the key literal. The optional
quote and the whitespace run are deterministic here: no whitespace
character or quote can match the `:` they would have to stand in for. -/
def afterKey (s : List Char) : Option (List Char) :=
  let s1 := match s with
    | c :: rest => if isQuote c then rest else s
    | [] => s
  let s2 := s1.drop ((s1.takeWhile isJsWhite).length)
  match s2 with
  | c :: rest => if c == ':' then some rest else none
  | [] => none

/-- Full pattern match anchored at the current position: the key literal,
`["']?\s*:`, then `\s*["']?([^,"'}]+)` with whitespace backtracking.
Returns the capture group. -/
def matchKeyAt (key : List Char) (s : List Char) : Option (List Char) :=
  match litMatch key s with
  | none => none
  | some r1 =>
      match afterKey r1 with
      | none => none
      | some r2 => tryWsLevels ((r2.takeWhile isJsWhite).length) r2

/-- `String.prototype.match`: try the pattern at each position from the
left; the first position with a match wins. Returns the capture group. -/
def regexSearch (key : List Char) : List Char → Option (List Char)
  | [] => matchKeyAt key []
  | c :: cs =>
      match matchKeyAt key (c :: cs) with
      | some cap => some cap
      | none => regexSearch key cs

/-- The structured result of the adapter (TypeScript `ExtractedData`).
The declared field type is `string | null`; at runtime the JSON-success
path stores whatever JSON value the key held, so the model keeps the
JSON value. `none` is JavaScript `null`. -/
structure ExtractedData where
  meterValue : Option JsonVal
  serialNumber : Option JsonVal
deriving DecidableEq

/-- One fallback field: `match ? match[1].trim() : "Parse Error"`. -/
def fallbackField (key : String) (t : List Char) : Option JsonVal :=
  match regexSearch key.data t with
  | some cap => some (.jstr (String.mk (trimChars cap)))
  | none => some (.jstr ("Parse Error"))

/-- The response-content parsing of `performOpenAIAnalysis` (lines
117-144): trim, strip a code fence, try `JSON.parse` and map the two keys
through `?? null`; on parse failure run the two fallback regexes on the
fence-stripped content. -/
def parseAIContent (content : String) : ExtractedData :=
  let t := trimChars content.data
  let t2 := stripFence t
  match jsonParse t2 with
  | some obj =>
      { meterValue := jsNullish (lookupLast obj ("meterValue")),
        serialNumber := jsNullish (lookupLast obj ("serialNumber")) }
  | none =>
      { meterValue := fallbackField ("meterValue") t2,
        serialNumber := fallbackField ("serialNumber") t2 }

/-- Environment configuration of the vision route. -/
structure Config where
  OPENAI_PROVIDER : Option String
  AZURE_OPENAI_ENDPOINT : Option String
  AZURE_OPENAI_API_KEY : Option String
  AZURE_OPENAI_DEPLOYMENT_NAME : Option String
  AZURE_OPENAI_API_VERSION : Option String
  OPENAI_API_KEY : Option String
  OPENAI_MODEL_NAME : Option String
deriving DecidableEq

/-- The provider-family selector `process.env.OPENAI_PROVIDER || 'azure'`. -/
def providerOf (cfg : Config) : String := jsOr cfg.OPENAI_PROVIDER ("azure")

/-- Outcome of the single chat-completions call, supplied as an explicit
argument: the first choice's message content, a response with no
choice/content, or a thrown request error (whose optional `detail` is
`error.response.data.error.message` when all of those are present). -/
inductive ChatOutcome where
  | content (text : String)
  | noContent
  | apiError (detail : Option String)
deriving DecidableEq

/-- The body shared by both provider families once a client is
configured: run the chat call and parse, translating the error paths of
the source's `try`/`catch` (a missing or empty — hence falsy — content
throws inside `try` and is re-wrapped by `catch` into the generic
processing message; an api error with upstream detail is rethrown with
the detail embedded). -/
def runAnalysis (providerName : String) (outcome : ChatOutcome) :
    Except String ExtractedData × ℕ :=
  match outcome with
  | .content t =>
      if t == "" then
        (.error ("Failed to process image with " ++ providerName ++ "."), 1)
      else (.ok (parseAIContent t), 1)
  | .noContent =>
      (.error ("Failed to process image with " ++ providerName ++ "."), 1)
  | .apiError (some d) =>
      (.error (providerName ++ " API Error: " ++ d), 1)
  | .apiError none =>
      (.error ("Failed to process image with " ++ providerName ++ "."), 1)

/-- `performOpenAIAnalysis`: provider-family dispatch and configuration
checks (all before any network call), then the analysis body. The second
component counts provider (network) invocations. -/
def performOpenAIAnalysis (cfg : Config) (outcome : ChatOutcome) :
    Except String ExtractedData × ℕ :=
  if providerOf cfg == "azure" then
    if !truthy cfg.AZURE_OPENAI_ENDPOINT || !truthy cfg.AZURE_OPENAI_API_KEY ||
        !truthy cfg.AZURE_OPENAI_DEPLOYMENT_NAME || !truthy cfg.AZURE_OPENAI_API_VERSION then
      (.error ("Server configuration error: Azure OpenAI credentials missing."), 0)
    else runAnalysis ("Azure OpenAI") outcome
  else if providerOf cfg == "openai" then
    if !truthy cfg.OPENAI_API_KEY then
      (.error ("Server configuration error: Standard OpenAI API Key missing."), 0)
    else runAnalysis ("OpenAI") outcome
  else (.error ("Server configuration error: Invalid AI provider specified."), 0)

/-- The incoming request of the vision route. -/
structure OaRequest where
  useMockParam : Option String
  contentTypeHeader : Option String
  image : Option UploadedFile
deriving DecidableEq

/-- The fixed mock payload of the vision route. -/
def mockExtracted : ExtractedData :=
  { meterValue := some (.jstr ("MOCK_12345.67")),
    serialNumber := some (.jstr ("MOCK_SN_987XYZ")) }

def MAX_FILE_SIZE_MB : ℕ := 4

def MAX_FILE_SIZE_BYTES : ℕ := MAX_FILE_SIZE_MB * 1024 * 1024

/-- Helper from the source: the declared MIME type must start with
`image/`. -/
def isFileTypeValid (file : UploadedFile) : Bool :=
  jsStartsWith file.type ("image/")

/-- Helper from the source: the byte length must not exceed the maximum. -/
def isFileSizeValid (file : UploadedFile) : Bool :=
  decide (file.size ≤ MAX_FILE_SIZE_BYTES)

/-- The `POST` handler of the vision route, in source order: mock
short-circuit (before any body parsing or validation), missing-file
check, file type check, file size check, then the analysis (whose own
configuration checks precede its network call). The handler's `catch`
returns the thrown message when it is a nonempty string (every message
thrown by the analysis is) and a generic message otherwise. -/
def POST (cfg : Config) (req : OaRequest) (outcome : ChatOutcome) :
    ApiResponse ExtractedData × ℕ :=
  if req.useMockParam == some ("true") then (.ok mockExtracted, 0)
  else
    match req.image with
    | none => (.err 400 ("No image file uploaded."), 0)
    | some f =>
        if !isFileTypeValid f then
          (.err 400 ("Invalid file type. Please select an image."), 0)
        else if !isFileSizeValid f then
          (.err 400 ("File size exceeds the limit of " ++ Nat.repr MAX_FILE_SIZE_MB ++ " MB."), 0)
        else
          match performOpenAIAnalysis cfg outcome with
          | (.ok res, n) => (.ok res, n)
          | (.error m, n) =>
              (.err 500 (if m == "" then ("An unexpected error occurred during image processing.") else m), n)

end OpenAIRoute

/-! ## Spec-side definitions for the OCR adapter

These definitions follow the specification's words ("each output string is
the line's words joined by single spaces with no trailing space"), to be
compared with `OcrRoute.parseReadResult`. -/

/-- Modelled from the spec: a list of character lists joined by single
spaces. -/
def joinChars : List (List Char) → List Char
  | [] => []
  | [w] => w
  | w :: rest@(_ :: _) => w ++ ' ' :: joinChars rest

/-- Modelled from the spec: words joined by single spaces (and nothing
else: no trailing separator). -/
def specJoinWords : List String → String
  | [] => ""
  | [w] => w
  | w :: rest@(_ :: _) => w ++ " " ++ specJoinWords rest

/-- A character list that is nonempty and has no whitespace at either
end. -/
def cleanChars (l : List Char) : Bool :=
  !l.isEmpty && !isJsWhite (l.headD ' ') && !isJsWhite (l.reverse.headD ' ')

/-- A word string that is nonempty and has no whitespace at either end —
the shape every real OCR word token has. -/
def cleanWord (s : String) : Bool := cleanChars s.data

/-! ## Helper lemmas -/

set_option maxRecDepth 100000 in
set_option maxHeartbeats 4000000 in
/-- On an achromatic pixel the whole floating-point pipeline is exact:
the computed gray of `(v,v,v)` stores back as exactly `v` (checked for
all 256 channel values). -/
theorem uniform_gray_exact : ∀ v : ℕ, v < 256 → toUint8Clamp (jsGray v v v) = v := by
  with_unfolding_all decide

/-- The exact spec luma of an achromatic pixel is the channel value
itself, and the spec's rounding returns it unchanged. -/
theorem specRound_uniform (v : ℕ) : specRound (grayExact v v v) = v := by
  have h : grayExact v v v = (v : ℚ) := by unfold grayExact; ring
  have h2 : ((v : ℤ) : ℚ) + 1/2 = (v : ℚ) + 1/2 := by push_cast; ring
  unfold specRound
  rw [h, ← h2, Int.floor_int_add]
  norm_num

/-- Binarizing a pixel twice is the same as binarizing it once. -/
theorem preprocessPixel_binarize_idem (p : Pixel) :
    preprocessPixel true (preprocessPixel true p) = preprocessPixel true p := by
  have h255 : 128 < jsGray 255 255 255 := by with_unfolding_all decide
  have h0 : ¬ 128 < jsGray 0 0 0 := by with_unfolding_all decide
  by_cases h : 128 < jsGray p.r p.g p.b
  · simp [preprocessPixel, h, h255]
  · simp [preprocessPixel, h, h0]

/-! ## Claims C1-C3: the pixel transform -/

/-- C1 (counterexample). The grayscale output is not
`round(0.30r + 0.59g + 0.11b)` for every pixel: at `(r,g,b) = (0,44,14)`
the exact luma is `27.5`, so `round` gives `28` (so does rounding half to
even, since 27 is odd), but the binary64 evaluation of
`0.3*0 + 0.59*44 + 0.11*14` is slightly below `27.5` and the clamped
store yields `27`. -/
theorem C1_counterexample :
    (preprocessPixel false ⟨0, 44, 14, 255⟩).r ≠ (specRound (grayExact 0 44 14)).toNat ∧
    (preprocessPixel false ⟨0, 44, 14, 255⟩).r = 27 ∧
    specRound (grayExact 0 44 14) = 28 := by
  with_unfolding_all decide

/-- C1 (amended). The Pixel Transform with `binarize = false` sets the
three color channels to one common value, namely the `Uint8ClampedArray`
store of the binary64 evaluation of `0.3·r + 0.59·g + 0.11·b`; that value
equals `round(0.30r + 0.59g + 0.11b)` on every achromatic pixel
(`r = g = b`), where it is exactly the channel value — but not on every
pixel (see `C1_counterexample`). -/
theorem C1_grayscale_round :
    (∀ p : Pixel, ∃ v : ℕ, preprocessPixel false p = ⟨v, v, v, p.a⟩) ∧
    (∀ v a : ℕ, v < 256 →
      preprocessPixel false ⟨v, v, v, a⟩ =
        ⟨(specRound (grayExact v v v)).toNat, (specRound (grayExact v v v)).toNat,
         (specRound (grayExact v v v)).toNat, a⟩) := by
  constructor
  · intro p
    exact ⟨toUint8Clamp (jsGray p.r p.g p.b), rfl⟩
  · intro v a hv
    have h1 : toUint8Clamp (jsGray v v v) = v := uniform_gray_exact v hv
    have h2 : specRound (grayExact v v v) = v := specRound_uniform v
    simp [preprocessPixel, h1, h2]

/-- C1 (witness for the amended claim at a concrete achromatic pixel). -/
theorem C1_witness :
    200 < 256 ∧
    preprocessPixel false ⟨200, 200, 200, 7⟩ =
      ⟨(specRound (grayExact 200 200 200)).toNat, (specRound (grayExact 200 200 200)).toNat,
       (specRound (grayExact 200 200 200)).toNat, 7⟩ :=
  ⟨by decide, C1_grayscale_round.2 200 7 (by decide)⟩

/-- C2. With `binarize = true` every pixel's three color channels are set
to `255` when the computed grayscale intensity is strictly greater than
`128` and to `0` otherwise; consequently every color channel of every
output pixel is `0` or `255` (and the three channels agree). -/
theorem C2_binarize_threshold :
    (∀ p : Pixel, preprocessPixel true p =
      ⟨if 128 < jsGray p.r p.g p.b then 255 else 0,
       if 128 < jsGray p.r p.g p.b then 255 else 0,
       if 128 < jsGray p.r p.g p.b then 255 else 0, p.a⟩) ∧
    (∀ (img : List Pixel) (q : Pixel), q ∈ preprocessImage true img →
      (q.r = 0 ∨ q.r = 255) ∧ q.g = q.r ∧ q.b = q.r) := by
  constructor
  · intro p
    rfl
  · intro img q hq
    rw [preprocessImage, List.mem_map] at hq
    obtain ⟨p, -, rfl⟩ := hq
    by_cases h : 128 < jsGray p.r p.g p.b
    · simp [preprocessPixel, h]
    · simp [preprocessPixel, h]

/-- C2 (witness at a concrete one-pixel image). -/
theorem C2_witness :
    (preprocessPixel true ⟨10, 200, 30, 5⟩ ∈ preprocessImage true [⟨10, 200, 30, 5⟩]) ∧
    (((preprocessPixel true ⟨10, 200, 30, 5⟩).r = 0 ∨
      (preprocessPixel true ⟨10, 200, 30, 5⟩).r = 255) ∧
     (preprocessPixel true ⟨10, 200, 30, 5⟩).g = (preprocessPixel true ⟨10, 200, 30, 5⟩).r ∧
     (preprocessPixel true ⟨10, 200, 30, 5⟩).b = (preprocessPixel true ⟨10, 200, 30, 5⟩).r) :=
  ⟨List.mem_singleton.mpr rfl,
   C2_binarize_threshold.2 [⟨10, 200, 30, 5⟩] _ (List.mem_singleton.mpr rfl)⟩

/-- C3. The binarizing Pixel Transform is idempotent on whole images:
applying it to its own output changes nothing, because a pixel whose
channels are all `255` has computed gray above the threshold and one
whose channels are all `0` has computed gray `0`. -/
theorem C3_binarize_idempotent : ∀ img : List Pixel,
    preprocessImage true (preprocessImage true img) = preprocessImage true img := by
  intro img
  unfold preprocessImage
  rw [List.map_map]
  exact List.map_congr_left (fun p _ => preprocessPixel_binarize_idem p)

/-! ## Claim C4: helper lemmas about line assembly and trimming -/

/-- The space character is JavaScript whitespace. -/
theorem isJsWhite_space : isJsWhite ' ' = true := by decide

/-- A clean character list is nonempty. -/
theorem cleanChars_ne_nil {l : List Char} (h : cleanChars l = true) : l ≠ [] := by
  intro he
  subst he
  simp [cleanChars] at h

/-- Dropping leading whitespace does nothing to a list starting with a
clean word. -/
theorem dropWhile_clean_head {l : List Char} (t : List Char) (h : cleanChars l = true) :
    (l ++ t).dropWhile isJsWhite = l ++ t := by
  cases l with
  | nil => simp [cleanChars] at h
  | cons c cs =>
      simp only [cleanChars, List.isEmpty_cons, List.headD_cons, Bool.not_eq_true',
        Bool.and_eq_true, Bool.not_eq_false'] at h
      simp [List.dropWhile_cons, h.1.2]

/-- Dropping leading whitespace does nothing to the reversal of a clean
word. -/
theorem dropWhile_clean_rev {l : List Char} (h : cleanChars l = true) :
    l.reverse.dropWhile isJsWhite = l.reverse := by
  cases hrev : l.reverse with
  | nil =>
      have : l = [] := by simpa using congrArg List.reverse hrev
      subst this
      simp [cleanChars] at h
  | cons c cs =>
      have hc : isJsWhite c = false := by
        simp only [cleanChars, Bool.and_eq_true, Bool.not_eq_true', hrev,
          List.headD_cons] at h
        exact h.2
      simp [List.dropWhile_cons, hc]

/-- Joining the words with a trailing space after each one equals the
single-space join followed by one trailing space (for at least one
word). -/
theorem flatten_space_words (ws : List (List Char)) (h : ws ≠ []) :
    (ws.map (fun w => w ++ [' '])).flatten = joinChars ws ++ [' '] := by
  induction ws with
  | nil => cases h rfl
  | cons w rest ih =>
      cases rest with
      | nil => simp [joinChars]
      | cons r rs =>
          rw [List.map_cons, List.flatten_cons, ih (by simp)]
          simp [joinChars]

/-- The single-space join of clean words is nonempty. -/
theorem joinChars_ne_nil {w : List Char} (rest : List (List Char))
    (hw : cleanChars w = true) : joinChars (w :: rest) ≠ [] := by
  have hne := cleanChars_ne_nil hw
  cases rest with
  | nil => simpa [joinChars] using hne
  | cons r rs =>
      simp [joinChars]

/-- Dropping trailing whitespace from the space-terminated join of clean
words leaves exactly the single-space join. -/
theorem flatten_space_rev_dropWhile (ws : List (List Char)) (hne : ws ≠ [])
    (hcl : ∀ w ∈ ws, cleanChars w = true) :
    ((ws.map (fun w => w ++ [' '])).flatten).reverse.dropWhile isJsWhite =
      (joinChars ws).reverse := by
  induction ws with
  | nil => cases hne rfl
  | cons w rest ih =>
      have hw := hcl w (List.mem_cons_self w rest)
      cases rest with
      | nil =>
          simp only [List.map_cons, List.map_nil, List.flatten_cons, List.flatten_nil,
            List.append_nil, List.reverse_append, List.reverse_cons, List.reverse_nil,
            List.nil_append, List.singleton_append, joinChars]
          rw [List.dropWhile_cons]
          simp only [isJsWhite_space, if_true]
          exact dropWhile_clean_rev hw
      | cons r rs =>
          have hrest := ih (by simp) (fun x hx => hcl x (List.mem_cons_of_mem w hx))
          rw [List.map_cons, List.flatten_cons, List.reverse_append, List.dropWhile_append,
            hrest]
          have hjne : (joinChars (r :: rs)).reverse ≠ [] := by
            simpa using joinChars_ne_nil rs (hcl r (by simp))
          rw [if_neg (by simpa [List.isEmpty_iff] using hjne)]
          show _ = (joinChars (w :: r :: rs)).reverse
          simp [joinChars, List.reverse_append]

/-- Trimming the space-terminated join of clean words yields the
single-space join. -/
theorem trim_flatten_space (ws : List (List Char))
    (hcl : ∀ w ∈ ws, cleanChars w = true) :
    trimChars ((ws.map (fun w => w ++ [' '])).flatten) = joinChars ws := by
  cases ws with
  | nil => simp [trimChars, joinChars]
  | cons w rest =>
      have hw := hcl w (List.mem_cons_self w rest)
      unfold trimChars
      have hfront :
          ((List.map (fun w => w ++ [' ']) (w :: rest)).flatten).dropWhile isJsWhite =
            (List.map (fun w => w ++ [' ']) (w :: rest)).flatten := by
        rw [List.map_cons, List.flatten_cons, List.append_assoc]
        exact dropWhile_clean_head _ hw
      rw [hfront, flatten_space_rev_dropWhile (w :: rest) (by simp) hcl,
        List.reverse_reverse]

/-- The characters of the accumulated `lineText` are the concatenation of
each word's characters followed by one space (fold form). -/
theorem foldl_lineText_data (ws : List OcrRoute.OcrWord) :
    ∀ acc : String,
      (ws.foldl (fun a w => a ++ w.text ++ " ") acc).data =
        acc.data ++ (ws.map (fun w => w.text.data ++ [' '])).flatten := by
  induction ws with
  | nil => intro acc; simp
  | cons w rest ih =>
      intro acc
      rw [List.foldl_cons, ih]
      have hsp : (" " : String).data = [' '] := rfl
      simp [String.data_append, hsp, List.append_assoc]

/-- The characters of `lineTextOf`. -/
theorem lineTextOf_data (ws : List OcrRoute.OcrWord) :
    (OcrRoute.lineTextOf ws).data = (ws.map (fun w => w.text.data ++ [' '])).flatten := by
  unfold OcrRoute.lineTextOf
  rw [foldl_lineText_data]
  rfl

/-- The characters of the spec-side join. -/
theorem specJoinWords_data (ws : List String) :
    (specJoinWords ws).data = joinChars (ws.map String.data) := by
  induction ws with
  | nil => simp [specJoinWords, joinChars]
  | cons w rest ih =>
      cases rest with
      | nil => simp [specJoinWords, joinChars]
      | cons r rs =>
          have hsp : (" " : String).data = [' '] := rfl
          simp [specJoinWords, joinChars, ih, String.data_append, hsp]

/-- Per line, the code's trim-of-accumulated-text equals the spec-side
single-space join, provided every word is clean. -/
theorem jsTrim_lineText (ws : List OcrRoute.OcrWord)
    (h : ∀ w ∈ ws, cleanWord w.text = true) :
    jsTrim (OcrRoute.lineTextOf ws) = specJoinWords (ws.map OcrRoute.OcrWord.text) := by
  apply String.ext
  show trimChars ((OcrRoute.lineTextOf ws).data) = _
  rw [lineTextOf_data, specJoinWords_data]
  have hmaps : ws.map (fun w => w.text.data ++ [' ']) =
      (ws.map (fun w => w.text.data)).map (fun l => l ++ [' ']) := by
    rw [List.map_map]
    rfl
  have hmaps2 : (ws.map OcrRoute.OcrWord.text).map String.data =
      ws.map (fun w => w.text.data) := by
    rw [List.map_map]
    rfl
  rw [hmaps, hmaps2]
  exact trim_flatten_space _ (by
    intro l hl
    rw [List.mem_map] at hl
    obtain ⟨w, hw, rfl⟩ := hl
    exact h w hw)

/-! ## Claim C4: the TextLines adapter -/

/-- C4 (counterexample). The output string is not always the words joined
by single spaces: the source trims the assembled line at both ends, so a
word with leading whitespace loses it. With the single line of words
`[" a", "b"]` the adapter produces `"a b"`, while joining the words with
single spaces gives `" a b"`. -/
theorem C4_counterexample :
    OcrRoute.parseReadResult ⟨[⟨[⟨[⟨" a"⟩, ⟨"b"⟩]⟩]⟩]⟩ ≠ [specJoinWords [" a", "b"]] ∧
    OcrRoute.parseReadResult ⟨[⟨[⟨[⟨" a"⟩, ⟨"b"⟩]⟩]⟩]⟩ = ["a b"] ∧
    specJoinWords [" a", "b"] = " a b" := by
  with_unfolding_all decide

/-- C4 (amended). For every response whose words are clean (nonempty,
with no whitespace at either end — the shape OCR word tokens have), the
adapter emits one string per line, in the order the blocks and lines
appear, each string being exactly the line's words joined by single
spaces with no trailing space. Words with edge whitespace instead have it
trimmed away at the line edges (see `C4_counterexample`). -/
theorem C4_lines_joined :
    ∀ rr : OcrRoute.ReadResult,
      (∀ blk ∈ rr.blocks, ∀ ln ∈ blk.lines, ∀ w ∈ ln.words, cleanWord w.text = true) →
      OcrRoute.parseReadResult rr =
        rr.blocks.flatMap (fun blk =>
          blk.lines.map (fun ln => specJoinWords (ln.words.map OcrRoute.OcrWord.text))) := by
  intro rr
  obtain ⟨blocks⟩ := rr
  show (∀ blk ∈ blocks, _) → _
  induction blocks with
  | nil => intro h; rfl
  | cons blk rest ih =>
      intro h
      show OcrRoute.parseReadResult ⟨blk :: rest⟩ = _
      unfold OcrRoute.parseReadResult
      simp only [List.flatMap_cons]
      have hblk : blk.lines.map (fun ln => jsTrim (OcrRoute.lineTextOf ln.words)) =
          blk.lines.map (fun ln => specJoinWords (ln.words.map OcrRoute.OcrWord.text)) :=
        List.map_congr_left (fun ln hln =>
          jsTrim_lineText ln.words (h blk (List.mem_cons_self blk rest) ln hln))
      have hrest := ih (fun b hb => h b (List.mem_cons_of_mem blk hb))
      unfold OcrRoute.parseReadResult at hrest
      rw [hblk, hrest]

set_option maxRecDepth 40000 in
set_option maxHeartbeats 2000000 in
/-- C4 (witness): the claim's concrete instance, a response with 2
blocks, each with 1 line of 3 words, yields exactly 2 strings, each the
words joined by single spaces, with no trailing space. -/
theorem C4_witness :
    (∀ blk ∈ (OcrRoute.ReadResult.mk
        [⟨[⟨[⟨"12"⟩, ⟨"34"⟩, ⟨"kWh"⟩]⟩]⟩, ⟨[⟨[⟨"SN"⟩, ⟨"123"⟩, ⟨"X"⟩]⟩]⟩]).blocks,
      ∀ ln ∈ blk.lines, ∀ w ∈ ln.words, cleanWord w.text = true) ∧
    OcrRoute.parseReadResult
        ⟨[⟨[⟨[⟨"12"⟩, ⟨"34"⟩, ⟨"kWh"⟩]⟩]⟩, ⟨[⟨[⟨"SN"⟩, ⟨"123"⟩, ⟨"X"⟩]⟩]⟩]⟩ =
      ["12 34 kWh", "SN 123 X"] :=
  ⟨by decide,
   (C4_lines_joined ⟨[⟨[⟨[⟨"12"⟩, ⟨"34"⟩, ⟨"kWh"⟩]⟩]⟩, ⟨[⟨[⟨"SN"⟩, ⟨"123"⟩, ⟨"X"⟩]⟩]⟩]⟩
      (by decide)).trans (by with_unfolding_all decide)⟩

/-! ## Claim C5: vision-model response parsing -/

set_option maxRecDepth 40000 in
set_option maxHeartbeats 2000000 in
/-- C5. Both concrete parsing scenarios from the claim: a fenced code
block around the JSON object parses into the two fields, and unparseable
text containing `meterValue: 42` takes the fallback path, extracting
`"42"` and leaving `serialNumber` as the `"Parse Error"` sentinel. -/
theorem C5_vision_parsing :
    OpenAIRoute.parseAIContent ("```json\n\x7b\"meterValue\":\"123.4\",\"serialNumber\":\"SN1\"\x7d\n```") =
      ⟨some (.jstr ("123.4")), some (.jstr ("SN1"))⟩ ∧
    OpenAIRoute.parseAIContent ("meterValue: 42") =
      ⟨some (.jstr ("42")), some (.jstr ("Parse Error"))⟩ := by
  with_unfolding_all decide

/-! ## Claims C6 and C10: mock mode -/

/-- C6. Whenever the mock flag is set, both routes return their fixed
canonical payload and perform zero provider invocations, for every
configuration (valid or not), request body, and upstream outcome. -/
theorem C6_mock_fixed :
    (∀ (cfg : OcrRoute.Config) (req : OcrRoute.OcrRequest) (outcome : OcrRoute.AzureOutcome),
      req.useMockParam = some ("true") →
      OcrRoute.POST cfg req outcome = (.ok OcrRoute.mockOcrResults, 0)) ∧
    (∀ (cfg : OpenAIRoute.Config) (req : OpenAIRoute.OaRequest) (outcome : OpenAIRoute.ChatOutcome),
      req.useMockParam = some ("true") →
      OpenAIRoute.POST cfg req outcome = (.ok OpenAIRoute.mockExtracted, 0)) := by
  constructor
  · intro cfg req outcome h
    simp [OcrRoute.POST, h]
  · intro cfg req outcome h
    simp [OpenAIRoute.POST, h]

/-- C6 (witness): concrete mock requests against empty configurations. -/
theorem C6_witness :
    (OcrRoute.OcrRequest.useMockParam ⟨some ("true"), none, none⟩ = some ("true")) ∧
    OcrRoute.POST ⟨none, none⟩ ⟨some ("true"), none, none⟩ (.fetchFail ("x")) =
      (.ok OcrRoute.mockOcrResults, 0) ∧
    OpenAIRoute.POST ⟨none, none, none, none, none, none, none⟩ ⟨some ("true"), none, none⟩
        .noContent = (.ok OpenAIRoute.mockExtracted, 0) :=
  ⟨rfl, C6_mock_fixed.1 ⟨none, none⟩ ⟨some ("true"), none, none⟩ (.fetchFail ("x")) rfl,
   C6_mock_fixed.2 ⟨none, none, none, none, none, none, none⟩ ⟨some ("true"), none, none⟩
     .noContent rfl⟩

/-- C10. With the mock flag set the result is completely independent of
the rest of the request, of the configuration, and of the upstream: no
body parsing, no validation, and no configuration check can influence it
(so a mock request succeeds with no image attached, an oversized payload,
a non-image MIME type, or an entirely missing configuration). -/
theorem C10_mock_bypasses_validation :
    (∀ (cfg cfg' : OcrRoute.Config) (req req' : OcrRoute.OcrRequest)
        (o o' : OcrRoute.AzureOutcome),
      req.useMockParam = some ("true") → req'.useMockParam = some ("true") →
      OcrRoute.POST cfg req o = OcrRoute.POST cfg' req' o') ∧
    (∀ (cfg cfg' : OpenAIRoute.Config) (req req' : OpenAIRoute.OaRequest)
        (o o' : OpenAIRoute.ChatOutcome),
      req.useMockParam = some ("true") → req'.useMockParam = some ("true") →
      OpenAIRoute.POST cfg req o = OpenAIRoute.POST cfg' req' o') := by
  constructor
  · intro cfg cfg' req req' o o' h h'
    simp [OcrRoute.POST, h, h']
  · intro cfg cfg' req req' o o' h h'
    simp [OpenAIRoute.POST, h, h']

/-- C10 (witness): a mock request with no image and no configuration
behaves exactly like a mock request with an oversized non-image upload
and a full configuration. -/
theorem C10_witness :
    (OcrRoute.OcrRequest.useMockParam ⟨some ("true"), none, none⟩ = some ("true")) ∧
    OcrRoute.POST ⟨none, none⟩ ⟨some ("true"), none, none⟩ (.fetchFail ("x")) =
      OcrRoute.POST ⟨some ("e"), some ("k")⟩
        ⟨some ("true"), some ("text/plain"), some ⟨("application/pdf"), 5 * 1024 * 1024⟩⟩
        (.httpOk ⟨[]⟩) ∧
    OpenAIRoute.POST ⟨none, none, none, none, none, none, none⟩ ⟨some ("true"), none, none⟩
        .noContent =
      OpenAIRoute.POST ⟨some ("azure"), some ("e"), some ("k"), some ("d"), some ("v"), none, none⟩
        ⟨some ("true"), some ("text/plain"), some ⟨("application/pdf"), 5 * 1024 * 1024⟩⟩
        (.apiError (some ("boom"))) :=
  ⟨rfl,
   C10_mock_bypasses_validation.1 ⟨none, none⟩ ⟨some ("e"), some ("k")⟩
     ⟨some ("true"), none, none⟩
     ⟨some ("true"), some ("text/plain"), some ⟨("application/pdf"), 5 * 1024 * 1024⟩⟩
     (.fetchFail ("x")) (.httpOk ⟨[]⟩) rfl rfl,
   C10_mock_bypasses_validation.2 ⟨none, none, none, none, none, none, none⟩
     ⟨some ("azure"), some ("e"), some ("k"), some ("d"), some ("v"), none, none⟩
     ⟨some ("true"), none, none⟩
     ⟨some ("true"), some ("text/plain"), some ⟨("application/pdf"), 5 * 1024 * 1024⟩⟩
     .noContent (.apiError (some ("boom"))) rfl rfl⟩

/-! ## Claim C7: upload validation -/

set_option maxRecDepth 40000 in
/-- C7 (counterexample). A 5 MiB upload is not always rejected with a 400
validation error: the OCR route checks its Azure credentials before
validating the file, so with an unconfigured server the same oversized
upload yields the 500 configuration error (still with zero provider
invocations). -/
theorem C7_counterexample :
    (OcrRoute.POST ⟨none, none⟩
        ⟨none, some ("multipart/form-data"), some ⟨("image/png"), 5 * 1024 * 1024⟩⟩
        (.fetchFail ("down"))).1 =
      .err 500 ("OCR service is not configured correctly.") ∧
    ¬ (OcrRoute.POST ⟨none, none⟩
        ⟨none, some ("multipart/form-data"), some ⟨("image/png"), 5 * 1024 * 1024⟩⟩
        (.fetchFail ("down"))).1.status = 400 ∧
    (OcrRoute.POST ⟨none, none⟩
        ⟨none, some ("multipart/form-data"), some ⟨("image/png"), 5 * 1024 * 1024⟩⟩
        (.fetchFail ("down"))).2 = 0 := by
  with_unfolding_all decide

/-- C7 (amended). A non-mock request carrying a file whose MIME type does
not start with `image/` or whose byte length exceeds the 4 MiB maximum is
answered with a 400 validation error and zero provider invocations — on
the vision route unconditionally, and on the OCR route provided the Azure
credentials are configured (otherwise that route answers 500 first, still
with zero provider invocations, see `C7_counterexample`). -/
theorem C7_validation_before_provider :
    (∀ (cfg : OcrRoute.Config) (req : OcrRoute.OcrRequest) (outcome : OcrRoute.AzureOutcome)
        (f : UploadedFile),
      truthy cfg.AZURE_ENDPOINT = true → truthy cfg.AZURE_KEY = true →
      ¬ req.useMockParam = some ("true") → req.image = some f →
      (OcrRoute.isFileTypeValid f = false ∨ OcrRoute.isFileSizeValid f = false) →
      (OcrRoute.POST cfg req outcome).1.status = 400 ∧
      (OcrRoute.POST cfg req outcome).2 = 0) ∧
    (∀ (cfg : OpenAIRoute.Config) (req : OpenAIRoute.OaRequest)
        (outcome : OpenAIRoute.ChatOutcome) (f : UploadedFile),
      ¬ req.useMockParam = some ("true") → req.image = some f →
      (OpenAIRoute.isFileTypeValid f = false ∨ OpenAIRoute.isFileSizeValid f = false) →
      (OpenAIRoute.POST cfg req outcome).1.status = 400 ∧
      (OpenAIRoute.POST cfg req outcome).2 = 0) := by
  constructor
  · intro cfg req outcome f he hk hm hi hv
    have hmb : (req.useMockParam == some ("true")) = false := beq_eq_false_iff_ne.mpr hm
    cases ht : OcrRoute.isFileTypeValid f with
    | false => simp [OcrRoute.POST, hmb, he, hk, hi, ht, ApiResponse.status]
    | true =>
        have hs : OcrRoute.isFileSizeValid f = false := by
          rcases hv with hv | hv
          · rw [ht] at hv; cases hv
          · exact hv
        simp [OcrRoute.POST, hmb, he, hk, hi, ht, hs, ApiResponse.status]
  · intro cfg req outcome f hm hi hv
    have hmb : (req.useMockParam == some ("true")) = false := beq_eq_false_iff_ne.mpr hm
    cases ht : OpenAIRoute.isFileTypeValid f with
    | false => simp [OpenAIRoute.POST, hmb, hi, ht, ApiResponse.status]
    | true =>
        have hs : OpenAIRoute.isFileSizeValid f = false := by
          rcases hv with hv | hv
          · rw [ht] at hv; cases hv
          · exact hv
        simp [OpenAIRoute.POST, hmb, hi, ht, hs, ApiResponse.status]

set_option maxRecDepth 40000 in
/-- C7 (witness): a configured OCR route rejects a 5 MiB image upload
with status 400 and zero provider invocations, and the vision route
rejects a non-image MIME type the same way with no configuration at
all. -/
theorem C7_witness :
    truthy (OcrRoute.Config.AZURE_ENDPOINT ⟨some ("e"), some ("k")⟩) = true ∧
    truthy (OcrRoute.Config.AZURE_KEY ⟨some ("e"), some ("k")⟩) = true ∧
    OcrRoute.isFileSizeValid ⟨("image/png"), 5 * 1024 * 1024⟩ = false ∧
    ((OcrRoute.POST ⟨some ("e"), some ("k")⟩
        ⟨none, some ("multipart/form-data"), some ⟨("image/png"), 5 * 1024 * 1024⟩⟩
        (.fetchFail ("down"))).1.status = 400 ∧
     (OcrRoute.POST ⟨some ("e"), some ("k")⟩
        ⟨none, some ("multipart/form-data"), some ⟨("image/png"), 5 * 1024 * 1024⟩⟩
        (.fetchFail ("down"))).2 = 0) ∧
    OpenAIRoute.isFileTypeValid ⟨("application/pdf"), 17⟩ = false ∧
    ((OpenAIRoute.POST ⟨none, none, none, none, none, none, none⟩
        ⟨none, some ("multipart/form-data"), some ⟨("application/pdf"), 17⟩⟩
        .noContent).1.status = 400 ∧
     (OpenAIRoute.POST ⟨none, none, none, none, none, none, none⟩
        ⟨none, some ("multipart/form-data"), some ⟨("application/pdf"), 17⟩⟩
        .noContent).2 = 0) :=
  ⟨rfl, rfl, by decide,
   C7_validation_before_provider.1 ⟨some ("e"), some ("k")⟩
     ⟨none, some ("multipart/form-data"), some ⟨("image/png"), 5 * 1024 * 1024⟩⟩
     (.fetchFail ("down")) ⟨("image/png"), 5 * 1024 * 1024⟩
     rfl rfl (by decide) rfl (Or.inr (by decide)),
   by decide,
   C7_validation_before_provider.2 ⟨none, none, none, none, none, none, none⟩
     ⟨none, some ("multipart/form-data"), some ⟨("application/pdf"), 17⟩⟩
     .noContent ⟨("application/pdf"), 17⟩
     (by decide) rfl (Or.inl (by decide))⟩

/-! ## Claim C8: helper lemmas about substring occurrence -/

/-- A list is an initial segment of itself followed by anything. -/
theorem strHasLead_append_self : ∀ p r : List Char, strHasLead p (p ++ r) = true := by
  intro p
  induction p with
  | nil => intro r; rfl
  | cons c cs ih => intro r; simp [strHasLead, ih]

/-- An initial segment occurs as a substring. -/
theorem listHasSub_of_lead {p h : List Char} (hp : strHasLead p h = true) :
    listHasSub p h = true := by
  cases h with
  | nil =>
      cases p with
      | nil => rfl
      | cons c cs => simp [strHasLead] at hp
  | cons c cs => simp [listHasSub, hp]

/-- The inner error message of `performServerSideOCR` always contains the
marker the `catch` block looks for, whatever the upstream status was. -/
theorem ocr_inner_includes (st : ℕ) :
    strContains ("Azure OCR request failed: " ++ Nat.repr st)
      ("Azure OCR request failed") = true := by
  unfold strContains
  rw [String.data_append]
  have hsplit : (("Azure OCR request failed: " : String)).data =
      (("Azure OCR request failed" : String)).data ++ ((": " : String)).data := by decide
  rw [hsplit, List.append_assoc]
  exact listHasSub_of_lead (strHasLead_append_self _ _)

/-! ## Claim C8: error wrapping -/

set_option maxRecDepth 40000 in
/-- C8 (counterexample). The vision route does return the upstream
provider's own error detail to the caller: a provider error whose body
carries the message `insufficient quota` is answered with
`Azure OpenAI API Error: insufficient quota`, which contains the
upstream detail verbatim. -/
theorem C8_counterexample :
    (OpenAIRoute.POST ⟨some ("azure"), some ("e"), some ("k"), some ("d"), some ("v"), none, none⟩
        ⟨none, some ("multipart/form-data"), some ⟨("image/png"), 17⟩⟩
        (.apiError (some ("insufficient quota")))).1 =
      .err 500 ("Azure OpenAI API Error: insufficient quota") ∧
    strContains ("Azure OpenAI API Error: insufficient quota") ("insufficient quota") = true := by
  with_unfolding_all decide

/-- C8 (amended). The OCR adapter wraps every upstream rejection in the
fixed caller-safe message `Error communicating with OCR service.`, for
every upstream status and error body (the body is only logged). The
vision adapter does so only when the upstream error carries no detail
message; when a detail is present it is embedded verbatim in the message
returned to the caller (`<provider> API Error: <detail>`), see
`C8_counterexample`. -/
theorem C8_provider_error_wrapping :
    (∀ (cfg : OcrRoute.Config) (st : ℕ) (t : String),
      truthy cfg.AZURE_ENDPOINT = true → truthy cfg.AZURE_KEY = true →
      OcrRoute.performServerSideOCR cfg (.httpFail st t) =
        (.error ("Error communicating with OCR service."), 1)) ∧
    (∀ (cfg : OpenAIRoute.Config) (d : String),
      OpenAIRoute.providerOf cfg = "azure" →
      truthy cfg.AZURE_OPENAI_ENDPOINT = true →
      truthy cfg.AZURE_OPENAI_API_KEY = true →
      truthy cfg.AZURE_OPENAI_DEPLOYMENT_NAME = true →
      truthy cfg.AZURE_OPENAI_API_VERSION = true →
      OpenAIRoute.performOpenAIAnalysis cfg (.apiError (some d)) =
        (.error ("Azure OpenAI API Error: " ++ d), 1)) := by
  constructor
  · intro cfg st t he hk
    simp [OcrRoute.performServerSideOCR, he, hk, OcrRoute.ocrCatchWrap,
      ocr_inner_includes st]
  · intro cfg d hp he hk hd hv
    have hb : (OpenAIRoute.providerOf cfg == "azure") = true := by
      rw [hp]
      decide
    have hcat : ("Azure OpenAI" : String) ++ " API Error: " = "Azure OpenAI API Error: " := by
      decide
    simp [OpenAIRoute.performOpenAIAnalysis, hb, he, hk, hd, hv, OpenAIRoute.runAnalysis,
      ← String.append_assoc, hcat]

/-- C8 (witness): both adapter-level facts at concrete inputs. -/
theorem C8_witness :
    truthy (OcrRoute.Config.AZURE_ENDPOINT ⟨some ("e"), some ("k")⟩) = true ∧
    OcrRoute.performServerSideOCR ⟨some ("e"), some ("k")⟩ (.httpFail 429 ("secret upstream detail")) =
      (.error ("Error communicating with OCR service."), 1) ∧
    OpenAIRoute.providerOf ⟨some ("azure"), some ("e"), some ("k"), some ("d"), some ("v"), none, none⟩ = "azure" ∧
    OpenAIRoute.performOpenAIAnalysis
        ⟨some ("azure"), some ("e"), some ("k"), some ("d"), some ("v"), none, none⟩
        (.apiError (some ("insufficient quota"))) =
      (.error ("Azure OpenAI API Error: " ++ "insufficient quota"), 1) :=
  ⟨rfl,
   C8_provider_error_wrapping.1 ⟨some ("e"), some ("k")⟩ 429 ("secret upstream detail") rfl rfl,
   rfl,
   C8_provider_error_wrapping.2 ⟨some ("azure"), some ("e"), some ("k"), some ("d"), some ("v"), none, none⟩
     ("insufficient quota") rfl rfl rfl rfl rfl⟩

/-! ## Claim C9: the StructuredFields invariant -/

/-- Mapping a key through `?? null` never produces an explicit JSON
null. -/
theorem jsNullish_ne_jnull (o : Option OpenAIRoute.JsonVal) :
    OpenAIRoute.jsNullish o ≠ some OpenAIRoute.JsonVal.jnull := by
  match o with
  | none => simp [OpenAIRoute.jsNullish]
  | some .jnull => simp [OpenAIRoute.jsNullish]
  | some (.jbool b) => simp [OpenAIRoute.jsNullish]
  | some (.jnum s) => simp [OpenAIRoute.jsNullish]
  | some (.jstr s) => simp [OpenAIRoute.jsNullish]

/-- The fallback path always yields a string (a capture or the
sentinel), never an explicit JSON null. -/
theorem fallbackField_ne_jnull (key : String) (t : List Char) :
    OpenAIRoute.fallbackField key t ≠ some OpenAIRoute.JsonVal.jnull := by
  unfold OpenAIRoute.fallbackField
  cases OpenAIRoute.regexSearch key.data t with
  | some cap => simp
  | none => simp

set_option maxRecDepth 40000 in
/-- C9 (counterexample). A field can be a returned empty string standing
where a value is expected: when the model's JSON carries
`"meterValue": ""`, the success path stores the empty string verbatim
instead of the absent value. -/
theorem C9_counterexample :
    (OpenAIRoute.parseAIContent ("\x7b\"meterValue\":\"\",\"serialNumber\":\"SN1\"\x7d")).meterValue =
      some (.jstr ("")) := by
  with_unfolding_all decide

/-- C9 (amended). Each of the two fields is either the absent value
(JavaScript `null`, produced for a missing or explicitly null key) or a
value taken verbatim from the model's JSON or from the fallback
extraction; the adapter never stores an explicit null as a present value,
but it also does not filter empty strings — a model-supplied empty string
is passed through (see `C9_counterexample`). -/
theorem C9_fields_never_null_value :
    ∀ content : String,
      (OpenAIRoute.parseAIContent content).meterValue ≠ some OpenAIRoute.JsonVal.jnull ∧
      (OpenAIRoute.parseAIContent content).serialNumber ≠ some OpenAIRoute.JsonVal.jnull := by
  intro content
  cases hj : OpenAIRoute.jsonParse (OpenAIRoute.stripFence (trimChars content.data)) with
  | none =>
      simp only [OpenAIRoute.parseAIContent, hj]
      exact ⟨fallbackField_ne_jnull _ _, fallbackField_ne_jnull _ _⟩
  | some obj =>
      simp only [OpenAIRoute.parseAIContent, hj]
      exact ⟨jsNullish_ne_jnull _, jsNullish_ne_jnull _⟩
